import Mathlib

/-!
Verification of the NI PXI6733 DAQ driver
(artiq/devices/pxi6733/driver.py and artiq/frontend/pxi6733_controller.py).

The driver wraps the vendor hardware capability (PyDAQmx, out of scope and
treated as opaque).  We embed the Python class DAQmx as a state record plus
pure transition functions.  Each call the driver issues to the hardware
capability is recorded as an event in an event trace, and every value the
hardware reports back that execution can actually consume (the handle of a
freshly created task, the resolved channel count) is an explicit input
gathered in an HWResponse record.  Python exceptions become an explicit
result value carrying the state at the raise point, so post-error state can
be reasoned about.

A central point of fidelity: at the line
samps_per_channel = nb_values // channel_number
the source divides by channel_number itself, a ctypes int32 object, not by
channel_number.value as in the divisibility check two lines earlier.
ctypes integers do not implement the // operator, so Python raises
TypeError (unsupported operand types for //) there.  Every call whose
buffer length passes the divisibility check therefore dies at that line:
the sample-clock configuration, the buffer write and its checks, the
done-event registration, the assignment self.task = t.taskHandle and
StartTask are all dead code, and load_sample_values never returns normally.
The embedding models the TypeError exit and omits the unreachable region
(whose PyDAQmx call sites CfgSampClkTiming, WriteAnalogF64,
DAQmxRegisterDoneEvent and StartTask can never execute).
-/

/-- Hardware-assigned task handles (opaque identities, modelled as Nat). -/
abbrev TaskHandle := Nat

/-- Calls the driver issues to the vendor hardware capability, in order.
Each constructor mirrors one reachable PyDAQmx call site in driver.py. -/
inductive HWEvent where
  /-- daq.DAQmxClearTask(handle): cancel/destroy a task on the hardware side. -/
  | clearTask (h : TaskHandle)
  /-- daq.Task(): a new hardware task object is created, with handle h. -/
  | createTask (h : TaskHandle)
  /-- t.CreateAOVoltageChan(channels, b empty, min(values), max(values), Volts, None). -/
  | createAOVoltageChan (vmin vmax : ℚ)
  deriving DecidableEq, Repr

/-- The mutable state of one DAQmx instance.  Fields channels, clock and
task are assigned in the constructor; the field device models the Python
attribute self.device read by ping: it is never assigned anywhere in the
class, which we embed as an optional attribute slot that no transition sets.
(The daq module reference itself carries no state relevant here.) -/
structure DAQmxState where
  channels : String
  clock : String
  /-- self.task: the handle of the active task, or None. -/
  task : Option TaskHandle
  /-- self.device: attribute slot read by ping; absent means a Python
  AttributeError on access.  No constructor or method ever assigns it. -/
  device : Option ℕ
  deriving DecidableEq, Repr

/-- Values the hardware capability reports back during one
load_sample_values call and that execution can actually consume.  The
write-stage responses (samples-written count, write status) are not here:
execution cannot pass the TypeError at the samples-per-channel division,
so the write is never performed. -/
structure HWResponse where
  /-- Handle the capability assigns to the task created by daq.Task(). -/
  newTaskHandle : TaskHandle
  /-- Channel count resolved for the channel descriptor, read back by
  t.GetTaskNumChans(byref(channel_number)). -/
  channelCount : ℕ
  deriving DecidableEq, Repr

/-- The errors load_sample_values can raise. -/
inductive DAQError where
  /-- Python ValueError raised by min()/max() on an empty sequence. -/
  | emptySequence
  /-- ValueError: the size of the values array must be a multiple of the
  number of channels (k). -/
  | invalidBufferSize (channelCount : ℕ)
  /-- Python TypeError at samps_per_channel = nb_values // channel_number:
  channel_number is a ctypes int32 object (the code omits .value here), and
  ctypes integers do not support the // operator. -/
  | typeError
  deriving DecidableEq, Repr

/-- Result of a load_sample_values call: normal return or a raised error.
(With the source as written, a normal return is in fact impossible; the
constructor is kept so the impossibility is a theorem, not a definition.) -/
inductive LoadResult where
  | ok
  | error (e : DAQError)
  deriving DecidableEq, Repr

/-- Everything one load_sample_values call produces: the result, the state
at the return/raise point, and the trace of hardware calls issued. -/
structure LoadOutcome where
  result : LoadResult
  state : DAQmxState
  events : List HWEvent
  deriving DecidableEq, Repr

/-- DAQmx.__init__(channels, clock): stores the (normalized) descriptors,
sets self.task = None.  self.device is never assigned. -/
def DAQmx.init (channels clock : String) : DAQmxState :=
  { channels := channels, clock := clock, task := none, device := none }

/-- DAQmx.clear_pending_task: if self.task is not None, call
daq.DAQmxClearTask(self.task) and set self.task = None. -/
def clearPendingTask (s : DAQmxState) : DAQmxState × List HWEvent :=
  match s.task with
  | some h => ({ s with task := none }, [HWEvent.clearTask h])
  | none => (s, [])

/-- DAQmx.close: free any allocated resources, i.e. clear_pending_task(). -/
def DAQmx.close (s : DAQmxState) : DAQmxState × List HWEvent :=
  clearPendingTask s

/-- DAQmx.done_callback_py(taskhandle, status, callback_data): if
taskhandle == self.task then self.clear_pending_task().  The status and
callback_data arguments are unused by the body. -/
def doneCallbackPy (s : DAQmxState) (taskhandle : TaskHandle) (_status : ℤ) :
    DAQmxState × List HWEvent :=
  if s.task = some taskhandle then clearPendingTask s else (s, [])

/-- Outcome of the identity query attempted inside DAQmx.ping. -/
inductive PingOutcome where
  /-- daq.DAQmxGetDevSerialNum(self.device, data) completed without error. -/
  | ok
  /-- Python AttributeError: self.device does not exist on the object. -/
  | errorNoDeviceAttr
  /-- The capability call itself failed (device unreachable, etc.). -/
  | errorQueryFailed
  deriving DecidableEq, Repr

/-- The body of the try-block of DAQmx.ping: evaluating self.device raises
AttributeError when the attribute is absent; otherwise the hardware call
daq.DAQmxGetDevSerialNum either succeeds or fails, which we take as an
explicit input querySucceeds. -/
def pingQuery (s : DAQmxState) (querySucceeds : Bool) : PingOutcome :=
  match s.device with
  | none => PingOutcome.errorNoDeviceAttr
  | some _ => if querySucceeds then PingOutcome.ok else PingOutcome.errorQueryFailed

/-- DAQmx.ping: try the identity query; the bare except clause converts any
failure into the return value False; return True otherwise. -/
def DAQmx.ping (s : DAQmxState) (querySucceeds : Bool) : Bool :=
  match pingQuery s querySucceeds with
  | PingOutcome.ok => true
  | _ => false

/-- DAQmx.load_sample_values(sampling_freq, values), transcribed from
driver.py with the hardware responses supplied in hw:
clear_pending_task(); t = daq.Task(); t.CreateAOVoltageChan(channels,
b empty, min(values), max(values), Volts, None) - Python min/max raise
ValueError on an empty sequence, after daq.Task() has already run; query
the resolved channel count; if nb_values % channel_number.value > 0,
destroy the created task and raise the buffer-size ValueError.  Otherwise
the next statement, samps_per_channel = nb_values // channel_number,
divides by the ctypes int32 object itself (no .value), which raises
TypeError before any further hardware call: the created task is NOT
destroyed on this exit, self.task is never assigned, and the remainder of
the method (CfgSampClkTiming, WriteAnalogF64 and its IOError checks,
DAQmxRegisterDoneEvent, self.task = t.taskHandle, StartTask) is
unreachable dead code.  (A zero resolved channel count is outside the
capability contract; with a zero count the validation branch is taken
since n mod 0 = n > 0 for a non-empty buffer.) -/
def loadSampleValues (hw : HWResponse) (s : DAQmxState) (_samplingFreq : ℚ)
    (values : List ℚ) : LoadOutcome :=
  let s1 := (clearPendingTask s).1
  let ev1 := (clearPendingTask s).2
  let t := hw.newTaskHandle
  match values.min?, values.max? with
  | some vmin, some vmax =>
    let ev2 := ev1 ++ [HWEvent.createTask t, HWEvent.createAOVoltageChan vmin vmax]
    let channelNumber := hw.channelCount
    let nbValues := values.length
    if nbValues % channelNumber > 0 then
      { result := LoadResult.error (DAQError.invalidBufferSize channelNumber),
        state := s1,
        events := ev2 ++ [HWEvent.clearTask t] }
    else
      { result := LoadResult.error DAQError.typeError,
        state := s1,
        events := ev2 }
  | _, _ =>
    { result := LoadResult.error DAQError.emptySequence,
      state := s1,
      events := ev1 }

/-- DAQmxSim.load_sample_values(values): no effect.  Note the simulation
method takes only the values sequence, with no sampling frequency. -/
def DAQmxSim.loadSampleValues (_values : List ℚ) : Unit := ()

/-- DAQmxSim.close(): no effect. -/
def DAQmxSim.close : Unit := ()

/-- DAQmxSim.ping(): returns True. -/
def DAQmxSim.ping : Bool := true

/-- Parameter count (excluding self) of DAQmxSim.load_sample_values in the
source: def load_sample_values(self, values). -/
def DAQmxSim.loadSampleValuesArity : ℕ := 1

/-- Parameter count (excluding self) of DAQmx.load_sample_values in the
source: def load_sample_values(self, sampling_freq, values). -/
def DAQmx.loadSampleValuesArity : ℕ := 2

/-- States a DAQmx instance can reach: the constructor output, followed by
any sequence of the public methods and the asynchronous done callback. -/
inductive Reachable : DAQmxState → Prop where
  | init (channels clock : String) : Reachable (DAQmx.init channels clock)
  | load (hw : HWResponse) (f : ℚ) (v : List ℚ) {s : DAQmxState} :
      Reachable s → Reachable (loadSampleValues hw s f v).state
  | done (th : TaskHandle) (status : ℤ) {s : DAQmxState} :
      Reachable s → Reachable (doneCallbackPy s th status).1
  | clear {s : DAQmxState} : Reachable s → Reachable (clearPendingTask s).1
  | close {s : DAQmxState} : Reachable s → Reachable (DAQmx.close s).1

/-- Example hardware response: two resolved channels. -/
def hwTwoChan : HWResponse := { newTaskHandle := 1, channelCount := 2 }

/-- Example freshly constructed controller state. -/
def initEx : DAQmxState := DAQmx.init "Dev1/ao0:1" "PFI5"

/-- Example state with an active task of handle 5. -/
def exTaskState : DAQmxState :=
  { channels := "Dev1/ao0", clock := "PFI5", task := some 5, device := none }

/-- Example hardware response for a first one-channel call. -/
def hwA : HWResponse := { newTaskHandle := 1, channelCount := 1 }

/-- Example hardware response for a second one-channel call. -/
def hwB : HWResponse := { newTaskHandle := 2, channelCount := 1 }

/-- Controller state after the first example call of the two-call scenario. -/
def midEx : DAQmxState := (loadSampleValues hwA exTaskState 10 [2]).state

lemma clearPendingTask_fst_task (s : DAQmxState) : (clearPendingTask s).1.task = none := by
  rcases s with ⟨c, k, t, d⟩
  cases t <;> rfl

lemma clearPendingTask_fst_device (s : DAQmxState) :
    (clearPendingTask s).1.device = s.device := by
  rcases s with ⟨c, k, t, d⟩
  cases t <;> rfl

lemma clearPendingTask_of_none (s : DAQmxState) (h : s.task = none) :
    clearPendingTask s = (s, []) := by
  unfold clearPendingTask
  rw [h]

lemma clearPendingTask_of_some (s : DAQmxState) (t : TaskHandle) (h : s.task = some t) :
    clearPendingTask s = ({ s with task := none }, [HWEvent.clearTask t]) := by
  unfold clearPendingTask
  rw [h]

lemma loadSampleValues_state (hw : HWResponse) (s : DAQmxState) (f : ℚ)
    (v : List ℚ) : (loadSampleValues hw s f v).state = (clearPendingTask s).1 := by
  unfold loadSampleValues
  split
  · by_cases h1 : v.length % hw.channelCount > 0 <;> simp [h1]
  · rfl

lemma loadSampleValues_state_task (hw : HWResponse) (s : DAQmxState) (f : ℚ)
    (v : List ℚ) : (loadSampleValues hw s f v).state.task = none := by
  rw [loadSampleValues_state, clearPendingTask_fst_task]

lemma loadSampleValues_state_device (hw : HWResponse) (s : DAQmxState) (f : ℚ)
    (v : List ℚ) : (loadSampleValues hw s f v).state.device = s.device := by
  rw [loadSampleValues_state, clearPendingTask_fst_device]

lemma doneCallbackPy_fst_device (s : DAQmxState) (th : TaskHandle) (st : ℤ) :
    (doneCallbackPy s th st).1.device = s.device := by
  unfold doneCallbackPy
  split_ifs <;> simp [clearPendingTask_fst_device]

lemma reachable_device_none {s : DAQmxState} (h : Reachable s) : s.device = none := by
  induction h with
  | init c k => rfl
  | load hw f v _ ih => rw [loadSampleValues_state_device]; exact ih
  | done th st _ ih => rw [doneCallbackPy_fst_device]; exact ih
  | clear _ ih => rw [clearPendingTask_fst_device]; exact ih
  | close _ ih =>
      rw [show DAQmx.close _ = clearPendingTask _ from rfl, clearPendingTask_fst_device]
      exact ih

/-- C1 (code bug): the non-divisible half of the claim holds against the
source (InvalidBufferSize reporting the resolved channel count, the
just-created task destroyed as the last hardware call before the raise,
activeTask empty), but the divisible half fails: with one resolved channel
and two samples the divisibility check passes and the source then raises
TypeError at samps_per_channel = nb_values // channel_number, because
channel_number is a ctypes int32 object without .value there; the call
never succeeds, so success iff divisibility is false. -/
theorem load_divisible_raises_typeError :
    (loadSampleValues hwA initEx 1000 [5, 6]).result =
      LoadResult.error DAQError.typeError ∧
    (loadSampleValues hwA initEx 1000 [5, 6]).state.task = none ∧
    (loadSampleValues hwTwoChan initEx 1000 [1, 2, 3]).result =
      LoadResult.error (DAQError.invalidBufferSize 2) ∧
    (loadSampleValues hwTwoChan initEx 1000 [1, 2, 3]).events.getLast? =
      some (HWEvent.clearTask 1) ∧
    (loadSampleValues hwTwoChan initEx 1000 [1, 2, 3]).state.task = none := by
  decide

/-- C2 (code bug): the first call on a controller holding task 5 does clear
it as its very first hardware action, but no call ever arms a new task:
both successive calls raise TypeError at the samples-per-channel floor
division before reaching self.task = t.taskHandle, so after two successive
calls zero tasks are active, not exactly one, and each call leaks the task
it created. -/
theorem two_loads_zero_active :
    (loadSampleValues hwA exTaskState 10 [2]).events.head? =
      some (HWEvent.clearTask 5) ∧
    (loadSampleValues hwA exTaskState 10 [2]).result =
      LoadResult.error DAQError.typeError ∧
    (loadSampleValues hwB midEx 20 [3]).result =
      LoadResult.error DAQError.typeError ∧
    (loadSampleValues hwB midEx 20 [3]).state.task = none := by decide

/-- C3 counterexample: at a controller state holding task 5, the done
callback for the matching identity 5 does release the reference, but it
also re-invokes the hardware-side clear/cancel call (DAQmxClearTask) on the
already-finished task, because it simply calls clear_pending_task; the
claimed conjunction (reference released and no hardware-side cancellation)
is therefore false. -/
theorem done_callback_hw_clear_counterexample :
    ¬ ((doneCallbackPy exTaskState 5 0).1.task = none ∧
        (doneCallbackPy exTaskState 5 0).2 = []) := by decide

/-- C3 (amended): when the identity matches the current task, the done
callback performs exactly the clear_pending_task behavior: it releases the
reference held by the controller AND issues the hardware-side clear of the
finished task; a subsequent clearing step, as at the start of the next
load_sample_values, then performs no hardware cancel, since the reference
is gone. -/
theorem done_callback_match_clears (s : DAQmxState) (t : TaskHandle)
    (status : ℤ) (hs : s.task = some t) :
    (doneCallbackPy s t status).1 = { s with task := none } ∧
    (doneCallbackPy s t status).2 = [HWEvent.clearTask t] ∧
    (clearPendingTask (doneCallbackPy s t status).1).2 = [] := by
  unfold doneCallbackPy
  rw [if_pos hs, clearPendingTask_of_some s t hs]
  exact ⟨rfl, rfl, by simp [clearPendingTask]⟩

/-- C3 witness: the amended behavior at the concrete state holding task 5. -/
theorem done_callback_match_clears_witness :
    (doneCallbackPy exTaskState 5 0).1 = { exTaskState with task := none } ∧
    (doneCallbackPy exTaskState 5 0).2 = [HWEvent.clearTask 5] ∧
    (clearPendingTask (doneCallbackPy exTaskState 5 0).1).2 = [] :=
  done_callback_match_clears exTaskState 5 0 (by decide)

/-- C4 (code bug): the simulation stand-in does return success and true for
ping with no side effects, but its load_sample_values signature is NOT
identical to the task controller method: the stand-in takes a single
parameter (the value sequence) while DAQmx.load_sample_values takes two
(sampling_freq and values). -/
theorem sim_load_signature_mismatch :
    DAQmxSim.ping = true ∧
    DAQmxSim.loadSampleValuesArity = 1 ∧
    DAQmx.loadSampleValuesArity = 2 ∧
    DAQmxSim.loadSampleValuesArity ≠ DAQmx.loadSampleValuesArity := by decide

/-- C5: a done notification whose identity differs from the current
activeTask leaves the controller state unchanged and issues no hardware
call: the callback is a no-op for superseded or stale tasks. -/
theorem done_callback_stale_noop (s : DAQmxState) (th : TaskHandle)
    (status : ℤ) (hne : s.task ≠ some th) :
    doneCallbackPy s th status = (s, []) := by
  unfold doneCallbackPy
  rw [if_neg hne]

/-- C5 witness: a stale notification for handle 7 at the state holding
task 5. -/
theorem done_callback_stale_noop_witness :
    doneCallbackPy exTaskState 7 0 = (exTaskState, []) :=
  done_callback_stale_noop exTaskState 7 0 (by decide)

/-- C6: a matching done notification clears self.task exactly once, issuing
exactly one hardware clear call; redelivering a notification with the same
identity to the already-cleared state is a no-op. -/
theorem done_callback_clears_once (s : DAQmxState) (t : TaskHandle)
    (status1 status2 : ℤ) (hs : s.task = some t) :
    (doneCallbackPy s t status1).1.task = none ∧
    (doneCallbackPy s t status1).2 = [HWEvent.clearTask t] ∧
    doneCallbackPy (doneCallbackPy s t status1).1 t status2 =
      ((doneCallbackPy s t status1).1, []) := by
  unfold doneCallbackPy
  rw [if_pos hs, clearPendingTask_of_some s t hs]
  refine ⟨rfl, rfl, ?_⟩
  rw [if_neg (by simp)]

/-- C6 witness: clearing once then redelivering the same identity at the
concrete state holding task 5. -/
theorem done_callback_clears_once_witness :
    (doneCallbackPy exTaskState 5 0).1.task = none ∧
    (doneCallbackPy exTaskState 5 0).2 = [HWEvent.clearTask 5] ∧
    doneCallbackPy (doneCallbackPy exTaskState 5 0).1 5 1 =
      ((doneCallbackPy exTaskState 5 0).1, []) :=
  done_callback_clears_once exTaskState 5 0 1 (by decide)

/-- C7: on the hardware-backed controller, ping returns False in every
reachable state and for either outcome of the hardware call, because the
device attribute read by the identity query is never assigned by the
constructor or any method, so the query always fails and the bare except
converts the failure to False. -/
theorem ping_always_false_on_reachable (s : DAQmxState) (hs : Reachable s)
    (q : Bool) : DAQmx.ping s q = false := by
  unfold DAQmx.ping pingQuery
  rw [reachable_device_none hs]

/-- C7 witness: ping on a freshly constructed controller returns False. -/
theorem ping_always_false_on_reachable_witness :
    DAQmx.ping (DAQmx.init "Dev1/ao0" "PFI5") true = false :=
  ping_always_false_on_reachable (DAQmx.init "Dev1/ao0" "PFI5")
    (Reachable.init "Dev1/ao0" "PFI5") true

/-- C8 (code bug): with two resolved channels and values [1, 2, 3, 4] the
divisibility check passes (4 mod 2 = 0), but the source then raises
TypeError at the samples-per-channel floor division: the call does not
succeed, the sample clock is never configured with samplesPerChannel = 2,
and no task is armed; the only hardware calls issued are the task creation
and the voltage-range channel creation, which does receive the per-call
range [min values, max values] = [1, 4] before the raise. -/
theorem scenario_two_channels_typeError :
    (loadSampleValues hwTwoChan initEx 1000 [1, 2, 3, 4]).result =
      LoadResult.error DAQError.typeError ∧
    (loadSampleValues hwTwoChan initEx 1000 [1, 2, 3, 4]).events =
      [HWEvent.createTask 1, HWEvent.createAOVoltageChan 1 4] ∧
    (loadSampleValues hwTwoChan initEx 1000 [1, 2, 3, 4]).state.task =
      none := by decide

/-- C9: ping is a total boolean probe: it returns True exactly when the
identity query completes without error, and it returns False exactly when
the query fails for any reason (missing device attribute, or a failing
hardware call); it is modelled as a total function into Bool, so no error
propagates to the caller. -/
theorem ping_converts_failures (s : DAQmxState) (q : Bool) :
    (DAQmx.ping s q = true ↔ pingQuery s q = PingOutcome.ok) ∧
    (DAQmx.ping s q = false ↔ pingQuery s q ≠ PingOutcome.ok) := by
  unfold DAQmx.ping
  cases hpq : pingQuery s q <;> simp [hpq]

/-- C10: every error exit of load_sample_values (the empty-sequence
ValueError, InvalidBufferSize, and the TypeError at the samples-per-channel
division, which together are all the exits the program has, since a normal
return is unreachable) leaves self.task empty: the slot is cleared on entry
and the assignment of a new task is never reached; consequently the
clearing step of a subsequent call performs no hardware cancel. -/
theorem load_error_leaves_no_task (hw : HWResponse) (s : DAQmxState) (f : ℚ)
    (v : List ℚ) (e : DAQError)
    (_herr : (loadSampleValues hw s f v).result = LoadResult.error e) :
    (loadSampleValues hw s f v).state.task = none ∧
    clearPendingTask (loadSampleValues hw s f v).state =
      ((loadSampleValues hw s f v).state, []) := by
  have h1 : (loadSampleValues hw s f v).state.task = none :=
    loadSampleValues_state_task hw s f v
  exact ⟨h1, clearPendingTask_of_none _ h1⟩

/-- C10 witness: an InvalidBufferSize failure (three samples on two
channels) leaves no task, and the next clearing step is a silent no-op. -/
theorem load_error_leaves_no_task_witness :
    (loadSampleValues hwTwoChan initEx 1000 [1, 2, 3]).state.task = none ∧
    clearPendingTask (loadSampleValues hwTwoChan initEx 1000 [1, 2, 3]).state =
      ((loadSampleValues hwTwoChan initEx 1000 [1, 2, 3]).state, []) :=
  load_error_leaves_no_task hwTwoChan initEx 1000 [1, 2, 3]
    (DAQError.invalidBufferSize 2) (by decide)
